import Mathlib

/-!
Verification development for the microsandbox repository.

This file shallowly embeds the parts of the repository that the claims
C1 .. C10 of CLAIMS.json are about:

* `src/microsandbox-server/lib/middleware.rs` — the authentication /
  namespace-isolation gateway (`auth_middleware`,
  `mcp_smart_auth_middleware`, `validate_token_and_namespace` and their
  helpers);
* `src/microsandbox-server/lib/error.rs` — the `ServerError` taxonomy and
  its `IntoResponse` mapping;
* `src/microsandbox-portal/lib/error.rs` — the `PortalError` taxonomy and
  its `IntoResponse` mapping;
* the RPC request payload shape used by
  `src/microsandbox-portal/examples/rpc_repl.rs`;
* the execution-engine core (engines, session registry, session state
  machine, timeout semantics) described in the spec.  The engine's own
  source is not part of `src/` (only its examples are), so those
  definitions are modelled from the spec, as marked in their doc
  comments.

Modelling conventions:

* Rust `Result<T, ServerError>` becomes `Except ServerError T`.
* The HTTP request body is a `Body`: either the buffered bytes
  (`Body.bytes b`, where `b : Option Json` is their parse result and
  `none` stands for bytes that do not parse as JSON), or
  `Body.readFailure`, a body on which axum's `to_bytes` fails — the
  middleware maps that failure to `ServerError::InternalError`.
* JWT decoding (`jsonwebtoken::decode` with HS256) is cryptographic and
  is abstracted as an oracle parameter
  `decode : String → String → Option Claims` (token, key ↦ claims);
  every theorem about the middleware is universally quantified over it.
* HTTP status codes are their numeric values (`Nat`).
-/

/-- A JSON value, the model of `serde_json::Value`. -/
inductive Json where
  | null : Json
  | bool (b : Bool) : Json
  | num (n : Int) : Json
  | str (s : String) : Json
  | arr (elems : List Json) : Json
  | obj (fields : List (String × Json)) : Json

/-- Field lookup in an association list of JSON object fields. -/
def lookupField : List (String × Json) → String → Option Json
  | [], _ => none
  | (k, v) :: rest, key => if k = key then some v else lookupField rest key

/-- `Value::get(key)` on a JSON value: a field of an object, `none` otherwise. -/
def Json.getField (j : Json) (key : String) : Option Json :=
  match j with
  | .obj fields => lookupField fields key
  | _ => none

/-- `Value::as_str`: the string of a JSON string, `none` otherwise. -/
def Json.asStr : Json → Option String
  | .str s => some s
  | _ => none

/-- The keys of a JSON object, in order; `[]` for non-objects. -/
def Json.keys : Json → List String
  | .obj fields => fields.map Prod.fst
  | _ => []

/-- `AuthenticationError` from `microsandbox-server/lib/error.rs`. -/
inductive AuthenticationError where
  | InvalidCredentials (details : String)
  | ClientError (details : String)
  | EmailNotConfirmed
  | TooManyAttempts
  | InvalidToken (details : String)
  | EmailAlreadyExists
  | UseGoogleLogin
  | UseGithubLogin
  | UseEmailLogin
  | EmailNotVerified
deriving DecidableEq

/-- `ValidationError` from `microsandbox-server/lib/error.rs`. -/
inductive ValidationError where
  | InvalidInput (details : String)
  | PasswordTooWeak (details : String)
  | EmailInvalid (details : String)
  | InvalidConfirmationToken
deriving DecidableEq

/-- `AuthorizationError` from `microsandbox-server/lib/error.rs`. -/
inductive AuthorizationError where
  | AccessDenied (details : String)
  | InsufficientPermissions (details : String)
deriving DecidableEq

/-- `ServerError` from `microsandbox-server/lib/error.rs`. -/
inductive ServerError where
  | Authentication (e : AuthenticationError)
  | AuthorizationError (e : AuthorizationError)
  | NotFound (details : String)
  | DatabaseError (details : String)
  | ValidationError (e : ValidationError)
  | InternalError (details : String)
deriving DecidableEq

/-- The JWT claims carried by an API key; only the `namespace` claim is
read by the middleware. -/
structure Claims where
  nspace : String
deriving DecidableEq

/-- Server configuration: the `dev_mode` flag and the optional server key
(`get_dev_mode` / `get_key` on the config held by `AppState`). -/
structure Config where
  devMode : Bool
  key : Option String
deriving DecidableEq

/-- `AppState`: holds the configuration. -/
structure AppState where
  config : Config
deriving DecidableEq

/-- One HTTP header value; `invalid` models a value on which
`HeaderValue::to_str` fails (non-visible-ASCII bytes). -/
inductive HeaderValue where
  | valid (s : String)
  | invalid
deriving DecidableEq

/-- The two headers the middleware reads: `Proxy-Authorization`
(`PROXY_AUTH_HEADER`) and `Authorization`. -/
structure Headers where
  proxyAuth : Option HeaderValue
  auth : Option HeaderValue
deriving DecidableEq

/-- The request body as the middleware buffers it with `to_bytes`:
either the materialised bytes, as their JSON parse result (`none` =
bytes that are not valid JSON), or a transport failure of `to_bytes`
carrying the failure message. -/
inductive Body where
  | bytes (b : Option Json)
  | readFailure (msg : String)

/-- An HTTP request as the middleware sees it: its headers and its
body. -/
structure Request where
  headers : Headers
  body : Body

/-- `str::strip_prefix` on character lists: the rest of the string after
the prefix, or `none` when the prefix does not match. -/
def dropPre : List Char → List Char → Option (List Char)
  | [], rest => some rest
  | _ :: _, [] => none
  | p :: ps, c :: cs => if p = c then dropPre ps cs else none

/-- `str::strip_prefix` on strings. -/
def stripPre (p s : String) : Option String :=
  match dropPre p.data s.data with
  | some rest => some ⟨rest⟩
  | none => none

/-- `s.strip_prefix("Bearer ")` from `extract_api_key_from_headers`. -/
def dropBearer (s : String) : Option String :=
  stripPre "Bearer " s

/-- `extract_api_key_from_headers` from `middleware.rs`: first the
`Proxy-Authorization` header, then `Authorization`; strip an optional
`Bearer ` prefix; missing header or non-ASCII value is an
`InvalidCredentials` authentication error. -/
def extract_api_key_from_headers (headers : Headers) : Except ServerError String :=
  match headers.proxyAuth with
  | some (.valid s) =>
    match dropBearer s with
    | some token => .ok token
    | none => .ok s
  | some .invalid =>
    .error (.Authentication (.InvalidCredentials "Invalid authorization header format"))
  | none =>
    match headers.auth with
    | some (.valid s) =>
      match dropBearer s with
      | some token => .ok token
      | none => .ok s
    | some .invalid =>
      .error (.Authentication (.InvalidCredentials "Invalid authorization header format"))
    | none =>
      .error (.Authentication (.InvalidCredentials "Missing authorization header"))

/-- `API_KEY_PREFIX` from `management.rs` (that file is not under `src/`;
the concrete value is immaterial: every theorem below quantifies over the
API key). -/
def API_KEY_PREFIX : String := "msb_"

/-- `convert_api_key_to_jwt` from `middleware.rs`: the API key must start
with the prefix; the rest is the JWT. -/
def convert_api_key_to_jwt (api_key : String) : Except ServerError String :=
  match stripPre API_KEY_PREFIX api_key with
  | some jwt => .ok jwt
  | none =>
    .error (.Authentication (.InvalidCredentials "Invalid API key format: missing prefix"))

/-- `get_server_key` from `middleware.rs`. -/
def get_server_key (state : AppState) : Except ServerError String :=
  match state.config.key with
  | some k => .ok k
  | none =>
    .error (.Authentication (.InvalidCredentials "Server key not found in configuration"))

/-- `validate_token` from `middleware.rs`, with JWT decoding abstracted as
the oracle `decode` (token, server key ↦ claims; `none` = any decode
failure, which the code maps to an `InvalidToken` authentication error). -/
def validate_token (decode : String → String → Option Claims) (api_key : String)
    (state : AppState) : Except ServerError Claims :=
  match convert_api_key_to_jwt api_key with
  | .error e => .error e
  | .ok jwt =>
    match get_server_key state with
    | .error e => .error e
    | .ok server_key =>
      match decode jwt server_key with
      | some claims => .ok claims
      | none => .error (.Authentication (.InvalidToken "Token validation error"))

/-- `extract_namespace_from_json_rpc` from `middleware.rs`: parse the body
as JSON, require a `params` object with a string `namespace` field; each
failure is an `InvalidInput` validation error. -/
def extract_namespace_from_json_rpc (body : Option Json) : Except ServerError String :=
  match body with
  | none => .error (.ValidationError (.InvalidInput "Invalid JSON-RPC request"))
  | some json_value =>
    match json_value.getField "params" with
    | none =>
      .error (.ValidationError (.InvalidInput "Missing params field in JSON-RPC request"))
    | some params =>
      match (params.getField "namespace").bind Json.asStr with
      | some ns => .ok ns
      | none =>
        .error (.ValidationError (.InvalidInput
          ("Missing or invalid namespace in params for method "
            ++ (((json_value.getField "method").bind Json.asStr).getD "unknown"))))

/-- `auth_middleware` from `middleware.rs`.  The result `.ok req` means the
inner handler (`next.run`) is invoked with request `req`; `.error e` means
the middleware returns the error and the handler never runs.  On the
non-wildcard path the body is buffered with `to_bytes`; a read failure
is mapped to `ServerError::InternalError` (middleware.rs lines 115-120).
The Rust code reconstructs the request from the buffered bytes, so the
forwarded request equals the original. -/
def auth_middleware (decode : String → String → Option Claims) (state : AppState)
    (req : Request) : Except ServerError Request :=
  if state.config.devMode then .ok req
  else
    match extract_api_key_from_headers req.headers with
    | .error e => .error e
    | .ok api_key =>
      match validate_token decode api_key state with
      | .error e => .error e
      | .ok claims =>
        if claims.nspace = "*" then .ok req
        else
          match req.body with
          | .readFailure msg =>
            .error (.InternalError ("Failed to read request body: " ++ msg))
          | .bytes body_bytes =>
            match extract_namespace_from_json_rpc body_bytes with
            | .error e => .error e
            | .ok ns_from_request =>
              if claims.nspace ≠ ns_from_request then
                .error (.AuthorizationError (.AccessDenied
                  ("Token does not have access to namespace " ++ ns_from_request)))
              else .ok req

/-- `mcp_smart_auth_middleware` from `middleware.rs`: like
`auth_middleware`, but namespace validation is applied only when the
JSON-RPC `method` field is `tools/call`; a `to_bytes` read failure on
the non-wildcard path is likewise an `InternalError` (middleware.rs
lines 169-174). -/
def mcp_smart_auth_middleware (decode : String → String → Option Claims)
    (state : AppState) (req : Request) : Except ServerError Request :=
  if state.config.devMode then .ok req
  else
    match extract_api_key_from_headers req.headers with
    | .error e => .error e
    | .ok api_key =>
      match validate_token decode api_key state with
      | .error e => .error e
      | .ok claims =>
        if claims.nspace = "*" then .ok req
        else
          match req.body with
          | .readFailure msg =>
            .error (.InternalError ("Failed to read request body: " ++ msg))
          | .bytes body_bytes =>
            match body_bytes with
            | none => .error (.ValidationError (.InvalidInput "Invalid JSON-RPC request"))
            | some json_value =>
              if (((json_value.getField "method").bind Json.asStr).getD "unknown")
                  = "tools/call" then
                match extract_namespace_from_json_rpc body_bytes with
                | .error e => .error e
                | .ok ns_from_request =>
                  if claims.nspace ≠ ns_from_request then
                    .error (.AuthorizationError (.AccessDenied
                      ("Token does not have access to namespace " ++ ns_from_request)))
                  else .ok req
              else .ok req

/-- `validate_token_and_namespace` from `middleware.rs`. -/
def validate_token_and_namespace (decode : String → String → Option Claims)
    (api_key : String) (requested_namespace : String) (state : AppState) :
    Except ServerError Claims :=
  match validate_token decode api_key state with
  | .error e => .error e
  | .ok claims =>
    if claims.nspace ≠ requested_namespace ∧ claims.nspace ≠ "*" then
      .error (.Authentication (.InvalidCredentials
        ("Token does not have access to namespace " ++ requested_namespace)))
    else .ok claims

/-- The client-visible parts of an HTTP error response built by
`impl IntoResponse for ServerError`: status code, `error` message, and
optional numeric `code`. -/
structure ErrorResponseParts where
  status : Nat
  error : String
  code : Option Nat

/-- `impl IntoResponse for ServerError` from
`microsandbox-server/lib/error.rs`: the full status / message / code
mapping.  Numeric codes are the `ErrorCode` enum values; the `_details`
of `InvalidCredentials` is only logged, never placed in the response. -/
def ServerError.intoResponse : ServerError → ErrorResponseParts
  | .Authentication auth_error =>
    match auth_error with
    | .InvalidCredentials _details => ⟨401, "Invalid credentials", some 1001⟩
    | .ClientError details => ⟨401, details, none⟩
    | .EmailNotConfirmed => ⟨401, "Email not confirmed", some 1002⟩
    | .TooManyAttempts =>
      ⟨429, "Too many login attempts, please try again later", some 1003⟩
    | .InvalidToken _details => ⟨401, "Invalid or expired token", some 1004⟩
    | .EmailAlreadyExists => ⟨409, "Email already registered", some 1007⟩
    | .UseGoogleLogin =>
      ⟨401, "This email is registered with Google. Please use Sign in with Google instead.",
        some 1008⟩
    | .UseGithubLogin =>
      ⟨401, "This email is registered with GitHub. Please use Sign in with GitHub instead.",
        some 1009⟩
    | .UseEmailLogin =>
      ⟨401, "This email is already registered. Please login with your password.", some 1010⟩
    | .EmailNotVerified => ⟨401, "Email not verified with the provider", some 1011⟩
  | .AuthorizationError auth_error =>
    match auth_error with
    | .AccessDenied _details => ⟨403, "Access denied", some 3001⟩
    | .InsufficientPermissions _details => ⟨403, "Insufficient permissions", some 3002⟩
  | .NotFound details => ⟨404, details, some 4001⟩
  | .DatabaseError _details => ⟨500, "Internal server error", some 5001⟩
  | .ValidationError validation_error =>
    match validation_error with
    | .InvalidInput details => ⟨400, details, some 2001⟩
    | .PasswordTooWeak details => ⟨400, details, some 2002⟩
    | .EmailInvalid details => ⟨400, details, some 2003⟩
    | .InvalidConfirmationToken =>
      ⟨400, "Invalid or expired confirmation token", some 2004⟩
  | .InternalError _details => ⟨500, "Internal server error", some 5002⟩

/-- `JsonRpcError` from the portal payload module: the JSON-RPC error
object placed in the response body. -/
structure JsonRpcError where
  code : Int
  message : String
  data : Option Json

/-- `PortalError` from `microsandbox-portal/lib/error.rs`. -/
inductive PortalError where
  | JsonRpc (message : String)
  | MethodNotFound (message : String)
  | Internal (message : String)
  | Parse (message : String)

/-- `impl IntoResponse for PortalError` from
`microsandbox-portal/lib/error.rs`: HTTP status paired with the JSON-RPC
error object. -/
def PortalError.intoResponse : PortalError → Nat × JsonRpcError
  | .JsonRpc message => (400, ⟨-32600, message, none⟩)
  | .MethodNotFound message => (404, ⟨-32601, message, none⟩)
  | .Parse message => (400, ⟨-32700, message, none⟩)
  | .Internal message => (500, ⟨-32603, message, none⟩)

/-- `SandboxReplRunParams`, the parameter payload of the `sandbox.repl.run`
RPC method.  Its complete field set is pinned by the exhaustive struct
literals in `examples/rpc_repl.rs` (lines 172-176 and 229-233): `code`,
`language`, and optional `timeout` — and nothing else. -/
structure SandboxReplRunParams where
  code : String
  language : String
  timeout : Option Nat

/-- Serialisation of `SandboxReplRunParams` to its JSON object (serde
defaults: field names as declared, `Option` as value-or-null). -/
def SandboxReplRunParams.toJson (p : SandboxReplRunParams) : Json :=
  .obj [("code", .str p.code), ("language", .str p.language),
        ("timeout", match p.timeout with | some t => .num (Int.ofNat t) | none => .null)]

/-- Modelled from the spec: the field set that §6 of the spec prescribes
for an eval RPC request — `code`, `language`, `session_id`,
`timeout_seconds`.  (Stated for comparison against the payload actually
built by the source.) -/
def specEvalRequestFields : List String :=
  ["code", "language", "session_id", "timeout_seconds"]

namespace Portal

/-- Modelled from the spec: the closed, compile-time set of guest
languages (§9, "closed tagged-variant set"); the enabled variants seen in
the examples (`Language::Python`, `Language::Node` in `examples/repl.rs`
and `examples/repl_timer.rs`). -/
inductive Language where
  | Python
  | Node
deriving DecidableEq

/-- The output stream tag of one captured line (`line.stream` in
`examples/repl_timer.rs`). -/
inductive Stream where
  | Stdout
  | Stderr
deriving DecidableEq

/-- One captured output line (`Line` in the portal REPL module; fields
`stream` and `text` as read by `examples/repl_timer.rs`). -/
structure Line where
  stream : Stream
  text : String
deriving DecidableEq

/-- Modelled from the spec: guest code is opaque to the core (§1); to
state observation properties we use a minimal instruction language in
which a step can define a variable, read a variable (printing it on
stdout if defined, a name error on stderr otherwise), print a literal,
idle for one time unit, or crash the subprocess.  Each instruction costs
one unit of the execution deadline. -/
inductive Instr where
  | defineVar (x : String)
  | printVar (x : String)
  | printLine (s : String)
  | sleep
  | crash
deriving DecidableEq

/-- A program: a sequence of instructions. -/
abbrev Code := List Instr

/-- Modelled from the spec: the guest interpreter's logical state, owned
entirely by the subprocess (§3); here, the set of defined variable
names.  A freshly spawned subprocess starts with the empty environment. -/
abbrev Env := List String

/-- The lines one instruction emits in a given environment. -/
def instrLines (i : Instr) (env : Env) : List Line :=
  match i with
  | .defineVar _ => []
  | .printVar x =>
    if x ∈ env then [⟨.Stdout, x⟩] else [⟨.Stderr, "NameError: " ++ x⟩]
  | .printLine s => [⟨.Stdout, s⟩]
  | .sleep => []
  | .crash => []

/-- The environment after one instruction. -/
def instrEnv (i : Instr) (env : Env) : Env :=
  match i with
  | .defineVar x => x :: env
  | _ => env

/-- Modelled from the spec: the completion status of one `run_once` call
(§4.1): `Completed`, `Faulted`, or `TimedOut`. -/
inductive Status where
  | Completed
  | Faulted
  | TimedOut
deriving DecidableEq

/-- The result of one execution: the accumulated ordered output lines,
the final interpreter environment, and the completion status. -/
structure RunResult where
  lines : List Line
  env : Env
  status : Status
deriving DecidableEq

/-- Modelled from the spec: the adapter's read loop (§4.1) — execute
instructions one by one, appending each instruction's lines to the
accumulator, until the program ends (`Completed`), the deadline fuel runs
out (`TimedOut`, forced termination), or the subprocess crashes
(`Faulted`); in every case the accumulated lines are returned. -/
def runSteps : Code → Env → Nat → List Line → RunResult
  | [], env, _, acc => ⟨acc, env, .Completed⟩
  | _ :: _, env, 0, acc => ⟨acc, env, .TimedOut⟩
  | i :: rest, env, fuel + 1, acc =>
    if i = .crash then ⟨acc, env, .Faulted⟩
    else runSteps rest (instrEnv i env) fuel (acc ++ instrLines i env)

/-- Modelled from the spec: the fuel available to one call — the timeout
in time units when given; with no timeout the call waits as long as the
program needs (§5, "a missing timeout means the call waits
indefinitely"). -/
def fuelFor (code : Code) (timeout : Option Nat) : Nat :=
  match timeout with
  | some t => t
  | none => code.length

/-- Modelled from the spec: `run_once(code, deadline)` of the Interpreter
Process Adapter (§4.1), starting from the subprocess environment `env`
with an empty output accumulator. -/
def runOnce (code : Code) (env : Env) (timeout : Option Nat) : RunResult :=
  runSteps code env (fuelFor code timeout) []

/-- The lines captured before the end, fault, or deadline expiry of a
run, defined directly (no accumulator): the reference against which
`runOnce` results are compared. -/
def execLines : Code → Env → Nat → List Line
  | [], _, _ => []
  | _ :: _, _, 0 => []
  | i :: rest, env, fuel + 1 =>
    if i = .crash then []
    else instrLines i env ++ execLines rest (instrEnv i env) fuel

/-- Modelled from the spec: the session lifecycle states (§4.2). -/
inductive SessionState where
  | Starting
  | Idle
  | Executing
  | Faulted
  | Terminated
deriving DecidableEq

/-- Modelled from the spec: a Session (§3, §4.2) — lifecycle state, the
subprocess's interpreter environment, and the monotonically increasing
execution counter. -/
structure Session where
  state : SessionState
  env : Env
  counter : Nat
deriving DecidableEq

/-- Modelled from the spec: a session whose subprocess spawn has just
begun (§4.3: a new Session "begins `Starting`"). -/
def freshSession : Session := ⟨.Starting, [], 0⟩

/-- Modelled from the spec: the session state after a call with the given
completion status (§4.2) — completion returns the session to `Idle`; a
timeout or crash marks it `Faulted`. -/
def statusToState : Status → SessionState
  | .Completed => .Idle
  | .Faulted => .Faulted
  | .TimedOut => .Faulted

/-- Modelled from the spec: `Session.execute` (§4.2) — a `Starting` or
`Faulted` session runs in a freshly (re)spawned subprocess with the empty
environment; completion returns the session to `Idle`; a timeout forcibly
terminates the subprocess and marks the session `Faulted`; a crash also
marks it `Faulted`. -/
def Session.execute (s : Session) (code : Code) (timeout : Option Nat) :
    RunResult × Session :=
  let env0 := if s.state = .Faulted ∨ s.state = .Starting then [] else s.env
  let r := runOnce code env0 timeout
  (r, ⟨statusToState r.status, r.env, s.counter + 1⟩)

/-- Modelled from the spec: an Engine's Session Registry (§4.3) — a map
from session id to Session, here an association list. -/
structure Engine where
  sessions : List (String × Session)
deriving DecidableEq

/-- Registry lookup by session id. -/
def lookupSession : List (String × Session) → String → Option Session
  | [], _ => none
  | (k, v) :: rest, sid => if k = sid then some v else lookupSession rest sid

/-- Registry update: replace the entry for `sid`, or append it. -/
def updateSession : List (String × Session) → String → Session → List (String × Session)
  | [], sid, s => [(sid, s)]
  | (k, v) :: rest, sid, s =>
    if k = sid then (sid, s) :: rest else (k, v) :: updateSession rest sid s

/-- Modelled from the spec: `get_or_create(id)` (§4.3) — the existing
session if present and not `Terminated`, otherwise a new session. -/
def getOrCreate (sessions : List (String × Session)) (sid : String) : Session :=
  match lookupSession sessions sid with
  | some s => if s.state = .Terminated then freshSession else s
  | none => freshSession

/-- Modelled from the spec: `Engine.eval` (§4.4) — delegate to the
registry and the session state machine, storing the updated session
back. -/
def Engine.eval (e : Engine) (sid : String) (code : Code) (timeout : Option Nat) :
    RunResult × Engine :=
  let rs := (getOrCreate e.sessions sid).execute code timeout
  (rs.1, ⟨updateSession e.sessions sid rs.2⟩)

/-- Modelled from the spec: the caller error for a language outside the
enabled set (§7, `UnsupportedLanguage` — "caller error, no side
effects"). -/
inductive EvalError where
  | UnsupportedLanguage
deriving DecidableEq

/-- Modelled from the spec: the Engine Handle (§4.5) — one Engine per
enabled language. -/
structure EngineHandle where
  engines : List (Language × Engine)
deriving DecidableEq

/-- Engine lookup by language. -/
def lookupEngine : List (Language × Engine) → Language → Option Engine
  | [], _ => none
  | (l, e) :: rest, lang => if l = lang then some e else lookupEngine rest lang

/-- Engine update by language (the key set never grows at eval time). -/
def updateEngine : List (Language × Engine) → Language → Engine → List (Language × Engine)
  | [], _, _ => []
  | (l, e) :: rest, lang, newE =>
    if l = lang then (lang, newE) :: rest else (l, e) :: updateEngine rest lang newE

/-- Modelled from the spec: `start_engines()` (§4.5) — construct one
Engine with an empty registry per enabled language. -/
def start_engines (enabled : List Language) : EngineHandle :=
  ⟨enabled.map (fun l => (l, ⟨[]⟩))⟩

/-- Modelled from the spec: `EngineHandle.eval(code, language, session_id,
timeout)` (§4.5) — look up the Engine for the language (unknown language
yields an `UnsupportedLanguage` error and leaves every engine untouched)
and forward the call. -/
def EngineHandle.eval (h : EngineHandle) (code : Code) (lang : Language)
    (sid : String) (timeout : Option Nat) :
    Except EvalError RunResult × EngineHandle :=
  match lookupEngine h.engines lang with
  | none => (.error .UnsupportedLanguage, h)
  | some e =>
    let re := e.eval sid code timeout
    (.ok re.1, ⟨updateEngine h.engines lang re.2⟩)

/-- Terminate one registry entry: kill its subprocess (drop the
environment) and mark the session `Terminated`. -/
def terminateSession (q : String × Session) : String × Session :=
  (q.1, ⟨.Terminated, [], q.2.counter⟩)

/-- Terminate every session of one engine. -/
def terminateEngine (p : Language × Engine) : Language × Engine :=
  (p.1, ⟨p.2.sessions.map terminateSession⟩)

/-- Modelled from the spec: `EngineHandle.shutdown()` (§4.5, §6) —
best-effort teardown that terminates every subprocess of every session
and never errors. -/
def EngineHandle.shutdown (h : EngineHandle) : Except EvalError EngineHandle :=
  .ok ⟨h.engines.map terminateEngine⟩

/-- The interpreter environment a call on `(lang, sid)` would start from
in handle state `h`: empty unless the session exists and is in a state
that keeps its subprocess. -/
def sessionEnvBefore (h : EngineHandle) (lang : Language) (sid : String) : Env :=
  match lookupEngine h.engines lang with
  | none => []
  | some e =>
    match lookupSession e.sessions sid with
    | none => []
    | some s =>
      if s.state = .Terminated ∨ s.state = .Faulted ∨ s.state = .Starting then []
      else s.env

end Portal

/-- A request is authorized (dev mode off): the headers carry an API key,
the key validates as a JWT, and the namespace claim is the wildcard or
the body buffers successfully and its JSON-RPC params carry a matching
`namespace` field. -/
def authorizedRequest (decode : String → String → Option Claims) (state : AppState)
    (req : Request) : Prop :=
  ∃ api_key claims,
    extract_api_key_from_headers req.headers = .ok api_key ∧
    validate_token decode api_key state = .ok claims ∧
    (claims.nspace = "*" ∨
      ∃ body_bytes, req.body = .bytes body_bytes ∧
        extract_namespace_from_json_rpc body_bytes = .ok claims.nspace)

/-- Whether a `ServerError` is an authentication error, a validation
error, or an `AccessDenied` authorization error — the error classes the
original claim allows. -/
def isAuthValidationOrAccessDenied : ServerError → Bool
  | .Authentication _ => true
  | .ValidationError _ => true
  | .AuthorizationError (.AccessDenied _) => true
  | _ => false

/-- The error classes of the amended claim: additionally `InternalError`,
returned when buffering the request body fails. -/
def isAuthValidationAccessDeniedOrInternal (e : ServerError) : Bool :=
  match e with
  | .InternalError _ => true
  | _ => isAuthValidationOrAccessDenied e

/-- Decidable equality on `Except`, for evaluating middleware results on
concrete inputs. -/
instance {ε α : Type} [DecidableEq ε] [DecidableEq α] : DecidableEq (Except ε α) :=
  fun x y =>
    match x, y with
    | .ok a, .ok b =>
      if h : a = b then isTrue (by rw [h]) else isFalse (fun hc => h (by injection hc))
    | .error a, .error b =>
      if h : a = b then isTrue (by rw [h]) else isFalse (fun hc => h (by injection hc))
    | .ok _, .error _ => isFalse (fun hc => Except.noConfusion hc)
    | .error _, .ok _ => isFalse (fun hc => Except.noConfusion hc)

set_option maxHeartbeats 1000000 in
theorem extract_api_key_error_class (headers : Headers) (e : ServerError)
    (h : extract_api_key_from_headers headers = .error e) :
    isAuthValidationOrAccessDenied e = true := by
  unfold extract_api_key_from_headers at h
  split at h
  · split at h <;> simp_all
  · simp at h; subst h; rfl
  · split at h
    · split at h <;> simp_all
    · simp at h; subst h; rfl
    · simp at h; subst h; rfl

set_option maxHeartbeats 1000000 in
theorem convert_api_key_error_class (api_key : String) (e : ServerError)
    (h : convert_api_key_to_jwt api_key = .error e) :
    isAuthValidationOrAccessDenied e = true := by
  unfold convert_api_key_to_jwt at h
  cases hs : stripPre API_KEY_PREFIX api_key with
  | some jwt => rw [hs] at h; simp at h
  | none => rw [hs] at h; simp at h; subst h; rfl

set_option maxHeartbeats 1000000 in
theorem get_server_key_error_class (state : AppState) (e : ServerError)
    (h : get_server_key state = .error e) :
    isAuthValidationOrAccessDenied e = true := by
  unfold get_server_key at h
  split at h
  · simp at h
  · simp at h; subst h; rfl

set_option maxHeartbeats 1000000 in
theorem validate_token_error_class (decode : String → String → Option Claims)
    (api_key : String) (state : AppState) (e : ServerError)
    (h : validate_token decode api_key state = .error e) :
    isAuthValidationOrAccessDenied e = true := by
  unfold validate_token at h
  cases hc : convert_api_key_to_jwt api_key with
  | error e1 =>
    rw [hc] at h
    simp at h
    subst h
    exact convert_api_key_error_class api_key e1 hc
  | ok jwt =>
    rw [hc] at h
    cases hk : get_server_key state with
    | error e2 =>
      rw [hk] at h
      simp at h
      subst h
      exact get_server_key_error_class state e2 hk
    | ok sk =>
      rw [hk] at h
      dsimp only at h
      cases hd : decode jwt sk with
      | some c => rw [hd] at h; simp at h
      | none => rw [hd] at h; simp at h; subst h; rfl

set_option maxHeartbeats 1000000 in
theorem extract_namespace_error_class (body : Option Json) (e : ServerError)
    (h : extract_namespace_from_json_rpc body = .error e) :
    isAuthValidationOrAccessDenied e = true := by
  unfold extract_namespace_from_json_rpc at h
  cases body with
  | none => simp at h; subst h; rfl
  | some j =>
    cases hp : j.getField "params" with
    | none => simp [hp] at h; subst h; rfl
    | some params =>
      simp only [hp] at h
      cases hn : (params.getField "namespace").bind Json.asStr with
      | some ns => rw [hn] at h; simp at h
      | none => rw [hn] at h; simp at h; subst h; rfl

theorem claimed_error_class_extends (e : ServerError)
    (h : isAuthValidationOrAccessDenied e = true) :
    isAuthValidationAccessDeniedOrInternal e = true := by
  cases e <;> first | rfl | exact h

set_option maxHeartbeats 1000000 in
/-- C1 (amended): with dev mode disabled, the inner handler runs if and
only if the request carries an API key that validates as a JWT whose
namespace claim is the wildcard or equals the namespace field of the
JSON-RPC params of the successfully buffered body; in every other case
auth_middleware returns an authentication, validation, or AccessDenied
authorization error — or an InternalError when buffering the request
body fails — and the handler is never invoked. -/
theorem auth_middleware_gate (decode : String → String → Option Claims)
    (state : AppState) (req : Request)
    (hdev : state.config.devMode = false) :
    ((∃ r, auth_middleware decode state req = .ok r) ↔ authorizedRequest decode state req)
    ∧ (∀ e, auth_middleware decode state req = .error e →
        isAuthValidationAccessDeniedOrInternal e = true) := by
  have hne : ¬(state.config.devMode = true) := by simp [hdev]
  unfold auth_middleware authorizedRequest
  rw [if_neg hne]
  cases hek : extract_api_key_from_headers req.headers with
  | error e0 =>
    refine ⟨⟨fun hok => ?_, fun hauth => ?_⟩, fun e he => ?_⟩
    · obtain ⟨r, hr⟩ := hok; simp at hr
    · obtain ⟨k, c, hk, _, _⟩ := hauth
      simp at hk
    · simp only [Except.error.injEq] at he
      subst he
      exact claimed_error_class_extends _ (extract_api_key_error_class _ _ hek)
  | ok api_key =>
    dsimp only
    cases hvt : validate_token decode api_key state with
    | error e0 =>
      refine ⟨⟨fun hok => ?_, fun hauth => ?_⟩, fun e he => ?_⟩
      · obtain ⟨r, hr⟩ := hok; simp at hr
      · obtain ⟨k, c, hk, hv, _⟩ := hauth
        simp at hk
        subst hk
        rw [hvt] at hv
        simp at hv
      · simp only [Except.error.injEq] at he
        subst he
        exact claimed_error_class_extends _ (validate_token_error_class _ _ _ _ hvt)
    | ok claims =>
      dsimp only
      by_cases hws : claims.nspace = "*"
      · rw [if_pos hws]
        refine ⟨⟨fun _ => ?_, fun _ => ⟨req, rfl⟩⟩, fun e he => ?_⟩
        · exact ⟨api_key, claims, rfl, hvt, Or.inl hws⟩
        · simp at he
      · rw [if_neg hws]
        cases hb : req.body with
        | readFailure msg =>
          refine ⟨⟨fun hok => ?_, fun hauth => ?_⟩, fun e he => ?_⟩
          · obtain ⟨r, hr⟩ := hok; simp at hr
          · obtain ⟨k, c, hk, hv, hns⟩ := hauth
            simp at hk
            subst hk
            rw [hvt] at hv
            simp at hv
            subst hv
            cases hns with
            | inl hx => exact absurd hx hws
            | inr hx =>
              obtain ⟨bb, hbb, _⟩ := hx
              simp at hbb
          · simp only [Except.error.injEq] at he
            subst he
            rfl
        | bytes body_bytes =>
          dsimp only
          cases hen : extract_namespace_from_json_rpc body_bytes with
          | error e0 =>
            refine ⟨⟨fun hok => ?_, fun hauth => ?_⟩, fun e he => ?_⟩
            · obtain ⟨r, hr⟩ := hok; simp at hr
            · obtain ⟨k, c, hk, hv, hns⟩ := hauth
              simp at hk
              subst hk
              rw [hvt] at hv
              simp at hv
              subst hv
              cases hns with
              | inl hx => exact absurd hx hws
              | inr hx =>
                obtain ⟨bb, hbb, hex⟩ := hx
                simp at hbb
                subst hbb
                rw [hen] at hex
                simp at hex
            · simp only [Except.error.injEq] at he
              subst he
              exact claimed_error_class_extends _ (extract_namespace_error_class _ _ hen)
          | ok ns =>
            dsimp only
            by_cases hnn : claims.nspace ≠ ns
            · rw [if_pos hnn]
              refine ⟨⟨fun hok => ?_, fun hauth => ?_⟩, fun e he => ?_⟩
              · obtain ⟨r, hr⟩ := hok; simp at hr
              · obtain ⟨k, c, hk, hv, hns⟩ := hauth
                simp at hk
                subst hk
                rw [hvt] at hv
                simp at hv
                subst hv
                cases hns with
                | inl hx => exact absurd hx hws
                | inr hx =>
                  obtain ⟨bb, hbb, hex⟩ := hx
                  simp at hbb
                  subst hbb
                  rw [hen] at hex
                  simp at hex
                  exact absurd hex.symm hnn
              · simp only [Except.error.injEq] at he
                subst he
                rfl
            · rw [if_neg hnn]
              push_neg at hnn
              refine ⟨⟨fun _ => ?_, fun _ => ⟨req, rfl⟩⟩, fun e he => ?_⟩
              · refine ⟨api_key, claims, rfl, hvt, Or.inr ⟨body_bytes, rfl, ?_⟩⟩
                rw [hnn]
                exact hen
              · simp at he

/-- Witness for C1: the hypotheses of `auth_middleware_gate` hold at a
concrete configuration, request, and decode oracle. -/
theorem auth_middleware_gate_witness :
    ((∃ r, auth_middleware
        (fun jwt key => if jwt = "tok" ∧ key = "k" then some ⟨"*"⟩ else none)
        ⟨⟨false, some "k"⟩⟩
        ⟨⟨none, some (.valid "Bearer msb_tok")⟩, .bytes none⟩ = .ok r)
      ↔ authorizedRequest
        (fun jwt key => if jwt = "tok" ∧ key = "k" then some ⟨"*"⟩ else none)
        ⟨⟨false, some "k"⟩⟩
        ⟨⟨none, some (.valid "Bearer msb_tok")⟩, .bytes none⟩)
    ∧ (∀ e, auth_middleware
        (fun jwt key => if jwt = "tok" ∧ key = "k" then some ⟨"*"⟩ else none)
        ⟨⟨false, some "k"⟩⟩
        ⟨⟨none, some (.valid "Bearer msb_tok")⟩, .bytes none⟩ = .error e →
        isAuthValidationAccessDeniedOrInternal e = true) :=
  auth_middleware_gate
    (fun jwt key => if jwt = "tok" ∧ key = "k" then some ⟨"*"⟩ else none)
    ⟨⟨false, some "k"⟩⟩
    ⟨⟨none, some (.valid "Bearer msb_tok")⟩, .bytes none⟩ rfl

/-- Counterexample for C1: a request with a valid namespace-bound API key
whose body buffering fails makes auth_middleware return an
InternalError — an error that is neither an authentication error, a
validation error, nor an AccessDenied authorization error, refuting the
claim that every non-forwarded request gets one of those three. -/
theorem auth_middleware_internal_error_outside_taxonomy :
    auth_middleware (fun _ _ => some ⟨"ns1"⟩) ⟨⟨false, some "k"⟩⟩
      ⟨⟨none, some (.valid "msb_tok")⟩, .readFailure "connection reset"⟩
      = .error (.InternalError ("Failed to read request body: " ++ "connection reset"))
    ∧ isAuthValidationOrAccessDenied
        (.InternalError ("Failed to read request body: " ++ "connection reset")) = false :=
  ⟨rfl, rfl⟩

/-- C8: with dev mode enabled, both middlewares forward the request to
the inner handler unchanged, for every decode oracle, every header set,
and every body — no API key extraction, token validation, or namespace
check influences the outcome. -/
theorem dev_mode_bypasses_auth (decode : String → String → Option Claims)
    (state : AppState) (req : Request)
    (hdev : state.config.devMode = true) :
    auth_middleware decode state req = .ok req
    ∧ mcp_smart_auth_middleware decode state req = .ok req := by
  constructor
  · unfold auth_middleware
    rw [if_pos hdev]
  · unfold mcp_smart_auth_middleware
    rw [if_pos hdev]

/-- Witness for C8: dev mode enabled at a concrete state. -/
theorem dev_mode_bypasses_auth_witness :
    auth_middleware (fun _ _ => none) ⟨⟨true, none⟩⟩ ⟨⟨none, none⟩, .bytes none⟩
      = .ok ⟨⟨none, none⟩, .bytes none⟩
    ∧ mcp_smart_auth_middleware (fun _ _ => none) ⟨⟨true, none⟩⟩ ⟨⟨none, none⟩, .bytes none⟩
      = .ok ⟨⟨none, none⟩, .bytes none⟩ :=
  dev_mode_bypasses_auth (fun _ _ => none) ⟨⟨true, none⟩⟩ ⟨⟨none, none⟩, .bytes none⟩ rfl

/-- C9: a validated token whose namespace claim is the wildcard grants
access to every namespace: both middlewares forward the request without
reading the body at all (the body is arbitrary), and
`validate_token_and_namespace` succeeds for every requested namespace. -/
theorem wildcard_namespace_grants_all (decode : String → String → Option Claims)
    (state : AppState) (req : Request) (api_key : String) (claims : Claims)
    (hdev : state.config.devMode = false)
    (hek : extract_api_key_from_headers req.headers = .ok api_key)
    (hvt : validate_token decode api_key state = .ok claims)
    (hws : claims.nspace = "*") :
    auth_middleware decode state req = .ok req
    ∧ mcp_smart_auth_middleware decode state req = .ok req
    ∧ ∀ requested_namespace : String,
        validate_token_and_namespace decode api_key requested_namespace state
          = .ok claims := by
  have hne : ¬(state.config.devMode = true) := by simp [hdev]
  refine ⟨?_, ?_, ?_⟩
  · unfold auth_middleware
    rw [if_neg hne, hek]
    dsimp only
    rw [hvt]
    dsimp only
    rw [if_pos hws]
  · unfold mcp_smart_auth_middleware
    rw [if_neg hne, hek]
    dsimp only
    rw [hvt]
    dsimp only
    rw [if_pos hws]
  · intro rn
    unfold validate_token_and_namespace
    rw [hvt]
    dsimp only
    rw [if_neg]
    intro hcon
    exact hcon.2 hws

/-- Witness for C9: a concrete wildcard token at a concrete state,
request, and oracle. -/
theorem wildcard_namespace_grants_all_witness :
    auth_middleware (fun jwt key => if jwt = "tok" ∧ key = "k" then some ⟨"*"⟩ else none)
      ⟨⟨false, some "k"⟩⟩ ⟨⟨none, some (.valid "msb_tok")⟩, .bytes none⟩
      = .ok ⟨⟨none, some (.valid "msb_tok")⟩, .bytes none⟩
    ∧ mcp_smart_auth_middleware
        (fun jwt key => if jwt = "tok" ∧ key = "k" then some ⟨"*"⟩ else none)
        ⟨⟨false, some "k"⟩⟩ ⟨⟨none, some (.valid "msb_tok")⟩, .bytes none⟩
      = .ok ⟨⟨none, some (.valid "msb_tok")⟩, .bytes none⟩
    ∧ ∀ requested_namespace : String,
        validate_token_and_namespace
          (fun jwt key => if jwt = "tok" ∧ key = "k" then some ⟨"*"⟩ else none)
          "msb_tok" requested_namespace ⟨⟨false, some "k"⟩⟩ = .ok ⟨"*"⟩ :=
  wildcard_namespace_grants_all
    (fun jwt key => if jwt = "tok" ∧ key = "k" then some ⟨"*"⟩ else none)
    ⟨⟨false, some "k"⟩⟩ ⟨⟨none, some (.valid "msb_tok")⟩, .bytes none⟩ "msb_tok" ⟨"*"⟩
    rfl (by decide) (by decide) rfl

/-- C10: the detail string inside
`ServerError.Authentication (AuthenticationError.InvalidCredentials d)`
never flows into the client-visible response: for any two detail strings
the responses are identical, namely HTTP 401 with body message
"Invalid credentials" and error code 1001. -/
theorem invalid_credentials_detail_hidden (d1 d2 : String) :
    ServerError.intoResponse (.Authentication (.InvalidCredentials d1))
      = ServerError.intoResponse (.Authentication (.InvalidCredentials d2))
    ∧ ServerError.intoResponse (.Authentication (.InvalidCredentials d1))
      = ⟨401, "Invalid credentials", some 1001⟩ :=
  ⟨rfl, rfl⟩

/-- C7: every `PortalError` maps to an HTTP JSON-RPC error response by
the fixed total mapping: JsonRpc to 400 with code -32600, MethodNotFound
to 404 with code -32601, Parse to 400 with code -32700, Internal to 500
with code -32603 — the error message is carried in the JSON-RPC error
object. -/
theorem portal_error_response_mapping (m : String) :
    PortalError.intoResponse (.JsonRpc m) = (400, ⟨-32600, m, none⟩)
    ∧ PortalError.intoResponse (.MethodNotFound m) = (404, ⟨-32601, m, none⟩)
    ∧ PortalError.intoResponse (.Parse m) = (400, ⟨-32700, m, none⟩)
    ∧ PortalError.intoResponse (.Internal m) = (500, ⟨-32603, m, none⟩) :=
  ⟨rfl, rfl, rfl, rfl⟩

/-- Counterexample for C2: the `sandbox.repl.run` request built by
`examples/rpc_repl.rs` (code `x = 10`-style, language `python`, timeout
30) does not carry a `session_id` field, contradicting the claim that
every eval request payload contains the session id. -/
theorem repl_run_request_missing_session_id :
    ¬ "session_id" ∈ (SandboxReplRunParams.toJson ⟨"x = 10", "python", some 30⟩).keys := by
  decide

/-- C2 as amended: every `sandbox.repl.run` request payload carries
exactly the fields `code`, `language`, and `timeout` (optional) — the
session id is not part of the payload, and the field set differs from
the one the spec prescribes. -/
theorem repl_run_request_field_set (p : SandboxReplRunParams) :
    (SandboxReplRunParams.toJson p).keys = ["code", "language", "timeout"]
    ∧ ¬ "session_id" ∈ (SandboxReplRunParams.toJson p).keys
    ∧ (SandboxReplRunParams.toJson p).keys ≠ specEvalRequestFields := by
  refine ⟨rfl, ?_, ?_⟩
  · show ¬ "session_id" ∈ (["code", "language", "timeout"] : List String)
    decide
  · show (["code", "language", "timeout"] : List String) ≠ specEvalRequestFields
    decide

namespace Portal

theorem runSteps_lines (code : Code) : ∀ (env : Env) (fuel : Nat) (acc : List Line),
    (runSteps code env fuel acc).lines = acc ++ execLines code env fuel := by
  induction code with
  | nil =>
    intro env fuel acc
    simp [runSteps, execLines]
  | cons i rest ih =>
    intro env fuel acc
    cases fuel with
    | zero => simp [runSteps, execLines]
    | succ f =>
      by_cases hc : i = Instr.crash
      · simp [runSteps, execLines, hc]
      · simp [runSteps, execLines, hc, ih, List.append_assoc]

theorem lookupEngine_updateEngine (l : List (Language × Engine)) (lang : Language)
    (e e2 : Engine) (hl : lookupEngine l lang = some e) :
    lookupEngine (updateEngine l lang e2) lang = some e2 := by
  induction l with
  | nil => simp [lookupEngine] at hl
  | cons p rest ih =>
    obtain ⟨pl, pe⟩ := p
    by_cases hp : pl = lang
    · subst hp
      unfold updateEngine
      rw [if_pos rfl]
      unfold lookupEngine
      rw [if_pos rfl]
    · unfold lookupEngine at hl
      rw [if_neg hp] at hl
      unfold updateEngine
      rw [if_neg hp]
      unfold lookupEngine
      rw [if_neg hp]
      exact ih hl

theorem lookupSession_updateSession (l : List (String × Session)) (sid : String)
    (s : Session) : lookupSession (updateSession l sid s) sid = some s := by
  induction l with
  | nil =>
    unfold updateSession lookupSession
    rw [if_pos rfl]
  | cons p rest ih =>
    obtain ⟨pk, pv⟩ := p
    by_cases hp : pk = sid
    · unfold updateSession
      rw [if_pos hp]
      unfold lookupSession
      rw [if_pos rfl]
    · unfold updateSession
      rw [if_neg hp]
      unfold lookupSession
      rw [if_neg hp]
      exact ih

theorem eval_after_faulted (h1 : EngineHandle) (lang : Language) (sid : String)
    (eng : Engine) (s2 : Session)
    (hle1 : lookupEngine h1.engines lang = some eng)
    (hls : lookupSession eng.sessions sid = some s2)
    (hf : s2.state = .Faulted) (c : Code) (t : Option Nat) :
    (h1.eval c lang sid t).1 = .ok (runOnce c [] t) := by
  unfold EngineHandle.eval
  rw [hle1]
  dsimp only
  unfold Engine.eval getOrCreate
  rw [hls]
  dsimp only
  rw [if_neg (by rw [hf]; intro hcon; cases hcon)]
  unfold Session.execute
  dsimp only
  rw [if_pos (Or.inl hf)]


theorem terminateEngine_invol (p : Language × Engine) :
    terminateEngine (terminateEngine p) = terminateEngine p := by
  unfold terminateEngine
  simp only [List.map_map]
  have hc : terminateSession ∘ terminateSession = terminateSession :=
    funext fun q => rfl
  rw [hc]

/-- C6: shutdown is idempotent — after a first `shutdown` returns a
handle, calling `shutdown` on it returns the same handle with no error
and no additional effect. -/
theorem shutdown_idempotent (h h1 : EngineHandle)
    (hs : h.shutdown = .ok h1) : h1.shutdown = .ok h1 := by
  unfold EngineHandle.shutdown at hs ⊢
  simp only [Except.ok.injEq] at hs
  subst hs
  simp only [Except.ok.injEq]
  congr 1
  rw [List.map_map]
  have hc : terminateEngine ∘ terminateEngine = terminateEngine :=
    funext fun p => terminateEngine_invol p
  rw [hc]

/-- Witness for C6: a concrete handle with one session. -/
theorem shutdown_idempotent_witness :
    (EngineHandle.mk [(Language.Python, ⟨[("s", ⟨.Terminated, [], 3⟩)]⟩)]).shutdown
      = .ok (EngineHandle.mk [(Language.Python, ⟨[("s", ⟨.Terminated, [], 3⟩)]⟩)]) :=
  shutdown_idempotent
    (EngineHandle.mk [(Language.Python, ⟨[("s", ⟨.Idle, ["x"], 3⟩)]⟩)])
    (EngineHandle.mk [(Language.Python, ⟨[("s", ⟨.Terminated, [], 3⟩)]⟩)])
    rfl

theorem lookupEngine_start_engines (enabled : List Language) (lang : Language)
    (hne : lang ∉ enabled) :
    lookupEngine (start_engines enabled).engines lang = none := by
  revert hne
  induction enabled with
  | nil => intro _; rfl
  | cons l ls ih =>
    intro hne
    have hl : l ≠ lang := fun he => hne (he ▸ List.mem_cons_self l ls)
    show lookupEngine ((l, ⟨[]⟩) :: (start_engines ls).engines) lang = none
    unfold lookupEngine
    rw [if_neg hl]
    exact ih (fun hm => hne (List.mem_cons_of_mem _ hm))

/-- C5: an eval call with a language outside the set fixed at startup
returns `UnsupportedLanguage` and leaves the handle — every engine and
every session — untouched: no subprocess is ever reached. -/
theorem unsupported_language_rejected (enabled : List Language) (lang : Language)
    (code : Code) (sid : String) (t : Option Nat) (hne : lang ∉ enabled) :
    (start_engines enabled).eval code lang sid t
      = (.error .UnsupportedLanguage, start_engines enabled) := by
  unfold EngineHandle.eval
  rw [lookupEngine_start_engines enabled lang hne]

/-- Witness for C5: Node is outside the startup set containing only
Python. -/
theorem unsupported_language_rejected_witness :
    (start_engines [Language.Python]).eval [] Language.Node "s" none
      = (.error .UnsupportedLanguage, start_engines [Language.Python]) :=
  unsupported_language_rejected [Language.Python] Language.Node [] "s" none (by decide)

set_option maxHeartbeats 1000000 in
/-- C4: an eval call that ends in a timeout or a subprocess fault still
returns every output line captured before the deadline or fault, in
order: the result lines equal `execLines` of the code from the
interpreter environment the call started in. -/
theorem eval_keeps_partial_output (h : EngineHandle) (lang : Language) (sid : String)
    (code : Code) (t : Nat) (r : RunResult) (h2 : EngineHandle)
    (hev : h.eval code lang sid (some t) = (.ok r, h2))
    (hst : r.status = .TimedOut ∨ r.status = .Faulted) :
    r.lines = execLines code (sessionEnvBefore h lang sid) t := by
  unfold EngineHandle.eval at hev
  cases hle : lookupEngine h.engines lang with
  | none => rw [hle] at hev; simp at hev
  | some e =>
    rw [hle] at hev
    dsimp only at hev
    rw [Prod.mk.injEq] at hev
    obtain ⟨hr, _⟩ := hev
    simp only [Except.ok.injEq] at hr
    subst hr
    unfold Engine.eval Session.execute
    dsimp only
    rw [runOnce, runSteps_lines]
    simp only [List.nil_append]
    show execLines code _ (fuelFor code (some t)) = _
    have hft : fuelFor code (some t) = t := rfl
    rw [hft]
    congr 1
    unfold sessionEnvBefore getOrCreate
    rw [hle]
    cases hls : lookupSession e.sessions sid with
    | none => simp [hls, freshSession]
    | some s =>
      dsimp only
      by_cases hterm : s.state = SessionState.Terminated
      · simp [hls, hterm, freshSession]
      · simp [hls, hterm]

/-- Witness for C4: a program that prints one line and then sleeps past a
2-unit deadline times out, and the returned lines still hold the printed
line. -/
theorem eval_keeps_partial_output_witness :
    RunResult.lines ⟨[⟨Stream.Stdout, "a"⟩], [], Status.TimedOut⟩
      = execLines [Instr.printLine "a", Instr.sleep, Instr.sleep]
          (sessionEnvBefore (start_engines [Language.Python]) Language.Python "s") 2 :=
  eval_keeps_partial_output (start_engines [Language.Python]) Language.Python "s"
    [Instr.printLine "a", Instr.sleep, Instr.sleep] 2
    ⟨[⟨Stream.Stdout, "a"⟩], [], Status.TimedOut⟩
    ⟨[(Language.Python, ⟨[("s", ⟨SessionState.Faulted, [], 1⟩)]⟩)]⟩
    rfl (Or.inl rfl)

set_option maxHeartbeats 1000000 in
/-- C3: after an eval on a session returns `TimedOut`, the next eval on
the same session id runs in a freshly respawned subprocess: its result is
exactly a run from the empty interpreter environment, so no variable
defined before the timeout is observable — probing any variable name
yields a name error on stderr. -/
theorem timed_out_session_fresh_restart (h : EngineHandle) (lang : Language)
    (sid : String) (c1 c2 : Code) (t1 : Nat) (t2 : Option Nat)
    (r1 : RunResult) (h1 : EngineHandle)
    (hev : h.eval c1 lang sid (some t1) = (.ok r1, h1))
    (hto : r1.status = .TimedOut) :
    (h1.eval c2 lang sid t2).1 = .ok (runOnce c2 [] t2)
    ∧ ∀ x : String, (h1.eval [Instr.printVar x] lang sid none).1
        = .ok ⟨[⟨Stream.Stderr, "NameError: " ++ x⟩], [], Status.Completed⟩ := by
  unfold EngineHandle.eval at hev
  cases hle : lookupEngine h.engines lang with
  | none => rw [hle] at hev; simp at hev
  | some e =>
    rw [hle] at hev
    dsimp only at hev
    rw [Prod.mk.injEq] at hev
    obtain ⟨hr, hh⟩ := hev
    simp only [Except.ok.injEq] at hr
    subst hr
    have hle1 : lookupEngine h1.engines lang = some (e.eval sid c1 (some t1)).2 := by
      rw [← hh]
      exact lookupEngine_updateEngine h.engines lang e _ hle
    have hses : ((e.eval sid c1 (some t1)).2).sessions
        = updateSession e.sessions sid
            ((getOrCreate e.sessions sid).execute c1 (some t1)).2 := rfl
    have hls : lookupSession ((e.eval sid c1 (some t1)).2).sessions sid
        = some ((getOrCreate e.sessions sid).execute c1 (some t1)).2 := by
      rw [hses]
      exact lookupSession_updateSession _ _ _
    have hto2 : ((getOrCreate e.sessions sid).execute c1 (some t1)).1.status
        = Status.TimedOut := hto
    have hf : (((getOrCreate e.sessions sid).execute c1 (some t1)).2).state
        = SessionState.Faulted := by
      show statusToState ((getOrCreate e.sessions sid).execute c1 (some t1)).1.status
        = SessionState.Faulted
      rw [hto2]
      rfl
    refine ⟨eval_after_faulted h1 lang sid _ _ hle1 hls hf c2 t2, fun x => ?_⟩
    rw [eval_after_faulted h1 lang sid _ _ hle1 hls hf [Instr.printVar x] none]
    rfl

/-- Witness for C3: a concrete timed-out first call, after which probing a
variable on the same session id reports a name error from a fresh
subprocess. -/
theorem timed_out_session_fresh_restart_witness :
    ((EngineHandle.mk [(Language.Python, ⟨[("s", ⟨SessionState.Faulted, [], 1⟩)]⟩)]).eval
        [Instr.printVar "v"] Language.Python "s" none).1
      = .ok (runOnce [Instr.printVar "v"] [] none)
    ∧ ∀ x : String,
        ((EngineHandle.mk [(Language.Python, ⟨[("s", ⟨SessionState.Faulted, [], 1⟩)]⟩)]).eval
          [Instr.printVar x] Language.Python "s" none).1
        = .ok ⟨[⟨Stream.Stderr, "NameError: " ++ x⟩], [], Status.Completed⟩ :=
  timed_out_session_fresh_restart (start_engines [Language.Python]) Language.Python "s"
    [Instr.printLine "a", Instr.sleep, Instr.sleep] [Instr.printVar "v"] 2 none
    ⟨[⟨Stream.Stdout, "a"⟩], [], Status.TimedOut⟩
    (EngineHandle.mk [(Language.Python, ⟨[("s", ⟨SessionState.Faulted, [], 1⟩)]⟩)])
    rfl rfl
end Portal
